import Mathlib

/-!
micro_orm-d, libmariadb backend: header prelude and smoke test.

Shallow embedding of

* `subpackages/backend_libmariadb/test.cpp` (`main`), the smoke test that
  drives the client library through `mysql_init`, `mysql_real_connect`,
  `mysql_query`, `mysql_error` and `mysql_close`;
* `subpackages/backend_libmariadb/header_prelude/mariadb_com.h`
  (`enum enum_field_types`).

The client library is external: its five functions are parameters of the
model (`ClientLib`), each a state transformer on an arbitrary library state,
so every theorem about `main` holds for every behaviour of the library.
-/

namespace MicroOrm

/-! ## Pointers and C strings -/

/-- A pointer value (`MYSQL*`); the null pointer is `0`. -/
abbrev Ptr := Nat

/-- The C++ `nullptr`. -/
def nullptr : Ptr := 0

/-- The C macro `NULL` used as a pointer. -/
def NULL : Ptr := 0

/-- A `const char*` argument: `none` is `NULL`, `some s` points to the text `s`. -/
abbrev CStr := Option String

/-! ## The external client library -/

/-- The five library functions called by `test.cpp`, over an arbitrary library
state `σ`.  Each takes the C arguments, then the state, and gives the C return
value and the next state.  The result of `mysql_error` is the text of the
message it points to (the library returns a null-terminated string, empty when
there is no error).  The result of `mysql_query` is a C `int`. -/
structure ClientLib (σ : Type) where
  mysql_init : Ptr → σ → Ptr × σ
  mysql_real_connect :
    Ptr → CStr → CStr → CStr → CStr → Nat → CStr → Nat → σ → Ptr × σ
  mysql_query : Ptr → String → σ → Int × σ
  mysql_error : Ptr → σ → String × σ
  mysql_close : Ptr → σ → σ

/-- One library call as it happened: the arguments and the value returned. -/
inductive Call where
  | mysql_init (mysql : Ptr) (ret : Ptr)
  | mysql_real_connect (mysql : Ptr) (host user passwd db : CStr) (port : Nat)
      (unix_socket : CStr) (clientflag : Nat) (ret : Ptr)
  | mysql_query (mysql : Ptr) (q : String) (ret : Int)
  | mysql_error (mysql : Ptr) (ret : String)
  | mysql_close (mysql : Ptr)
  deriving DecidableEq, Repr

namespace Call

/-- The call reports a failure to its caller: `mysql_init` or
`mysql_real_connect` returning null, `mysql_query` returning non-zero. -/
def failed : Call → Bool
  | mysql_init _ ret => ret == 0
  | mysql_real_connect _ _ _ _ _ _ _ _ ret => ret == 0
  | mysql_query _ _ ret => ret != 0
  | mysql_error _ _ => false
  | mysql_close _ => false

def isInit : Call → Bool
  | mysql_init _ _ => true
  | _ => false

def isConnect : Call → Bool
  | mysql_real_connect _ _ _ _ _ _ _ _ _ => true
  | _ => false

def isQuery : Call → Bool
  | mysql_query _ _ _ => true
  | _ => false

def isError : Call → Bool
  | mysql_error _ _ => true
  | _ => false

def isClose : Call → Bool
  | mysql_close _ => true
  | _ => false

/-- The `MYSQL*` argument of the call. -/
def handle : Call → Ptr
  | mysql_init mysql _ => mysql
  | mysql_real_connect mysql _ _ _ _ _ _ _ _ => mysql
  | mysql_query mysql _ _ => mysql
  | mysql_error mysql _ => mysql
  | mysql_close mysql => mysql

end Call

/-! ## `enum enum_field_types` of `mariadb_com.h` -/

/-- The enumerators of `enum enum_field_types`, in declaration order. -/
inductive enum_field_types where
  | MYSQL_TYPE_DECIMAL
  | MYSQL_TYPE_TINY
  | MYSQL_TYPE_SHORT
  | MYSQL_TYPE_LONG
  | MYSQL_TYPE_FLOAT
  | MYSQL_TYPE_DOUBLE
  | MYSQL_TYPE_NULL
  | MYSQL_TYPE_TIMESTAMP
  | MYSQL_TYPE_LONGLONG
  | MYSQL_TYPE_INT24
  | MYSQL_TYPE_DATE
  | MYSQL_TYPE_TIME
  | MYSQL_TYPE_DATETIME
  | MYSQL_TYPE_YEAR
  | MYSQL_TYPE_NEWDATE
  | MYSQL_TYPE_VARCHAR
  | MYSQL_TYPE_BIT
  | MYSQL_TYPE_TIMESTAMP2
  | MYSQL_TYPE_DATETIME2
  | MYSQL_TYPE_TIME2
  | MYSQL_TYPE_JSON
  | MYSQL_TYPE_NEWDECIMAL
  | MYSQL_TYPE_ENUM
  | MYSQL_TYPE_SET
  | MYSQL_TYPE_TINY_BLOB
  | MYSQL_TYPE_MEDIUM_BLOB
  | MYSQL_TYPE_LONG_BLOB
  | MYSQL_TYPE_BLOB
  | MYSQL_TYPE_VAR_STRING
  | MYSQL_TYPE_STRING
  | MYSQL_TYPE_GEOMETRY
  | MAX_NO_FIELD_TYPES
  deriving DecidableEq, Repr, Fintype

/-- The enumerator list as written in the header: each enumerator with its
initialiser, `none` where the header gives none. -/
def enum_field_types.declaration : List (enum_field_types × Option Int) :=
  [
   (.MYSQL_TYPE_DECIMAL, none),
   (.MYSQL_TYPE_TINY, none),
   (.MYSQL_TYPE_SHORT, none),
   (.MYSQL_TYPE_LONG, none),
   (.MYSQL_TYPE_FLOAT, none),
   (.MYSQL_TYPE_DOUBLE, none),
   (.MYSQL_TYPE_NULL, none),
   (.MYSQL_TYPE_TIMESTAMP, none),
   (.MYSQL_TYPE_LONGLONG, none),
   (.MYSQL_TYPE_INT24, none),
   (.MYSQL_TYPE_DATE, none),
   (.MYSQL_TYPE_TIME, none),
   (.MYSQL_TYPE_DATETIME, none),
   (.MYSQL_TYPE_YEAR, none),
   (.MYSQL_TYPE_NEWDATE, none),
   (.MYSQL_TYPE_VARCHAR, none),
   (.MYSQL_TYPE_BIT, none),
   (.MYSQL_TYPE_TIMESTAMP2, none),
   (.MYSQL_TYPE_DATETIME2, none),
   (.MYSQL_TYPE_TIME2, none),
   (.MYSQL_TYPE_JSON, some 245),
   (.MYSQL_TYPE_NEWDECIMAL, some 246),
   (.MYSQL_TYPE_ENUM, some 247),
   (.MYSQL_TYPE_SET, some 248),
   (.MYSQL_TYPE_TINY_BLOB, some 249),
   (.MYSQL_TYPE_MEDIUM_BLOB, some 250),
   (.MYSQL_TYPE_LONG_BLOB, some 251),
   (.MYSQL_TYPE_BLOB, some 252),
   (.MYSQL_TYPE_VAR_STRING, some 253),
   (.MYSQL_TYPE_STRING, some 254),
   (.MYSQL_TYPE_GEOMETRY, some 255),
   (.MAX_NO_FIELD_TYPES, none)]

/-- The C rule for enumerator values: an enumerator with an initialiser has
that value; one without has the value of the one before it plus one, and `0`
if it is the first.  The argument `next` is the value an enumerator without
initialiser gets. -/
def enumeratorValues {α : Type} : Int → List (α × Option Int) → List (α × Int)
  | _, [] => []
  | next, (e, none) :: rest => (e, next) :: enumeratorValues (next + 1) rest
  | _, (e, some v) :: rest => (e, v) :: enumeratorValues (v + 1) rest

/-- Every enumerator of `enum_field_types` with its value. -/
def enum_field_types.table : List (enum_field_types × Int) :=
  enumeratorValues 0 enum_field_types.declaration

/-- The numeric value of an enumerator (every enumerator is in the table, see
`enum_field_types.table_complete`, so the default is never taken). -/
def enum_field_types.value (e : enum_field_types) : Int :=
  (enum_field_types.table.lookup e).getD 0

/-- The enumerator is a field type: any enumerator but the sentinel
`MAX_NO_FIELD_TYPES`. -/
def enum_field_types.isFieldType (e : enum_field_types) : Bool :=
  e != .MAX_NO_FIELD_TYPES

/-- Reading a numeric tag back: the first enumerator of the table that has
the value `n`, if there is one. -/
def enum_field_types.ofValue? (n : Int) : Option enum_field_types :=
  (enum_field_types.table.find? (fun p => p.2 == n)).map Prod.fst

/-! ## The process running `main` -/

/-- What a run has done so far: the library state, the library calls in the
order they were made, and the text written to `stderr`. -/
structure World (σ : Type) where
  lib : σ
  calls : List Call
  stderr : String

/-- A terminated run: the world at `exit` and the exit status. -/
structure Exit (σ : Type) where
  world : World σ
  status : Int

variable {σ : Type}

def World.mysql_init (L : ClientLib σ) (mysql : Ptr) (w : World σ) : Ptr × World σ :=
  let r := L.mysql_init mysql w.lib
  (r.1, { w with lib := r.2, calls := w.calls ++ [Call.mysql_init mysql r.1] })

def World.mysql_real_connect (L : ClientLib σ) (mysql : Ptr) (host user passwd db : CStr)
    (port : Nat) (unix_socket : CStr) (clientflag : Nat) (w : World σ) : Ptr × World σ :=
  let r := L.mysql_real_connect mysql host user passwd db port unix_socket clientflag w.lib
  (r.1, { w with
    lib := r.2,
    calls := w.calls ++
      [Call.mysql_real_connect mysql host user passwd db port unix_socket clientflag r.1] })

def World.mysql_query (L : ClientLib σ) (mysql : Ptr) (q : String) (w : World σ) :
    Int × World σ :=
  let r := L.mysql_query mysql q w.lib
  (r.1, { w with lib := r.2, calls := w.calls ++ [Call.mysql_query mysql q r.1] })

def World.mysql_error (L : ClientLib σ) (mysql : Ptr) (w : World σ) : String × World σ :=
  let r := L.mysql_error mysql w.lib
  (r.1, { w with lib := r.2, calls := w.calls ++ [Call.mysql_error mysql r.1] })

def World.mysql_close (L : ClientLib σ) (mysql : Ptr) (w : World σ) : World σ :=
  { w with lib := L.mysql_close mysql w.lib, calls := w.calls ++ [Call.mysql_close mysql] }

/-- The call `fprintf(stderr, "%s\n", msg)`: appends `msg` and a newline. -/
def World.fprintf_stderr (msg : String) (w : World σ) : World σ :=
  { w with stderr := w.stderr ++ (msg ++ "\n") }

/-- The call `exit(status)`: the run ends here. -/
def World.exit (status : Int) (w : World σ) : Exit σ :=
  { world := w, status := status }

/-- The function `main` of `test.cpp`, started with library state `s0`, no call
made and nothing written.  The `return 0` after `exit(0)` is unreachable. -/
def main (L : ClientLib σ) (s0 : σ) : Exit σ :=
  let w : World σ := { lib := s0, calls := [], stderr := "" }
  -- line 8: MYSQL* con = mysql_init(nullptr);
  let (con, w) := w.mysql_init L nullptr
  -- line 9: if (con == nullptr)
  if con = nullptr then
    -- lines 10-11: fprintf(stderr, "%s\n", mysql_error(con)); exit(1);
    let (msg, w) := w.mysql_error L con
    let w := w.fprintf_stderr msg
    w.exit 1
  else
    -- lines 14-15: if (mysql_real_connect(con, "localhost", "root", "root_pswd",
    --                                    NULL, 0, NULL, 0) == NULL)
    let (r, w) := w.mysql_real_connect L con (some "localhost") (some "root")
      (some "root_pswd") none 0 none 0
    if r = NULL then
      -- lines 17-19: fprintf(stderr, "%s\n", mysql_error(con)); mysql_close(con); exit(1);
      let (msg, w) := w.mysql_error L con
      let w := w.fprintf_stderr msg
      let w := w.mysql_close L con
      w.exit 1
    else
      -- line 22: if (mysql_query(con, "CREATE DATABASE testdb"))
      let (q, w) := w.mysql_query L con "CREATE DATABASE testdb"
      if q ≠ 0 then
        -- lines 24-26: fprintf(stderr, "%s\n", mysql_error(con)); mysql_close(con); exit(1);
        let (msg, w) := w.mysql_error L con
        let w := w.fprintf_stderr msg
        let w := w.mysql_close L con
        w.exit 1
      else
        -- lines 29-30: mysql_close(con); exit(0);
        let w := w.mysql_close L con
        w.exit 0

/-! ### The outcomes of the three calls that can fail, read off the library -/

/-- The handle `mysql_init(nullptr)` returns from state `s0`. -/
def initHandle (L : ClientLib σ) (s0 : σ) : Ptr :=
  (L.mysql_init nullptr s0).1

/-- The value `mysql_real_connect` returns when called as `main` calls it,
right after `mysql_init`. -/
def connectResult (L : ClientLib σ) (s0 : σ) : Ptr :=
  (L.mysql_real_connect (initHandle L s0) (some "localhost") (some "root")
    (some "root_pswd") none 0 none 0 (L.mysql_init nullptr s0).2).1

/-- The library state after `mysql_init` and `mysql_real_connect`. -/
def connectedState (L : ClientLib σ) (s0 : σ) : σ :=
  (L.mysql_real_connect (initHandle L s0) (some "localhost") (some "root")
    (some "root_pswd") none 0 none 0 (L.mysql_init nullptr s0).2).2

/-- The value `mysql_query` returns when called as `main` calls it, right
after `mysql_real_connect`. -/
def queryResult (L : ClientLib σ) (s0 : σ) : Int :=
  (L.mysql_query (initHandle L s0) "CREATE DATABASE testdb" (connectedState L s0)).1

/-- A scripted library for concrete runs: the state is unused, the three
fallible calls return the given values, `mysql_error` returns `msg`. -/
def scripted (h c : Ptr) (q : Int) (msg : String) : ClientLib Unit where
  mysql_init := fun _ s => (h, s)
  mysql_real_connect := fun _ _ _ _ _ _ _ _ s => (c, s)
  mysql_query := fun _ _ s => (q, s)
  mysql_error := fun _ s => (msg, s)
  mysql_close := fun _ s => s

/-! ## The Session core described by the specification

The repository holds no Session implementation: `test.cpp` only calls the
external library.  The definitions of this section follow the text of the
specification (§3, §4.3, §4.5, §7). -/

/-- Modelled from the spec: the connection states of §4.3, `Disconnected →
Connecting → Ready → Executing → (ResultPending | Ready) → Closed`; no Session
type exists in the sources. -/
inductive SessionState where
  | Disconnected | Connecting | Ready | Executing | ResultPending | Closed
  deriving DecidableEq, Repr

/-- Modelled from the spec: the error kinds of §7; the sources declare none. -/
inductive ErrorKind where
  | ConnectionError | ProtocolError | IOError | StateError | ServerError
  deriving DecidableEq, Repr

/-- Modelled from the spec: the ErrorState of §3, a code (integer), a
standardized 5-character state string and a message text. -/
structure ErrorState where
  code : Int
  sqlstate : String
  message : String
  deriving DecidableEq, Repr

/-- Modelled from the spec: a failure surfaced as the result of a call (§7),
its kind together with the ErrorState it produces (§3: every failing operation
produces exactly one ErrorState). -/
structure Failure where
  kind : ErrorKind
  error : ErrorState
  deriving DecidableEq, Repr

/-- Modelled from the spec: a column-metadata descriptor of §3 (name, declared
type, nullability). -/
structure ColumnDescriptor where
  name : String
  declaredType : Int
  nullable : Bool
  deriving DecidableEq, Repr

/-- Modelled from the spec: a Row of §3, an ordered sequence of column values,
each null or a value. -/
abbrev Row := List (Option String)

/-- Modelled from the spec: the ResultCursor of §3, rows, column descriptors, a
cursor position and the "fully consumed" flag. -/
structure ResultCursor where
  columns : List ColumnDescriptor
  rows : List Row
  position : Nat
  consumed : Bool
  deriving DecidableEq, Repr

/-- Modelled from the spec: the connection endpoint of §3. -/
structure Endpoint where
  host : String
  port : Nat
  user : String
  password : String
  schema : String
  deriving DecidableEq, Repr

/-- Modelled from the spec: the Session of §3: one endpoint, one Transport
(`none` once released), a connection state, the server descriptor learned at
handshake, at most one outstanding ResultCursor, and the last-error slot of
§4.5. -/
structure Session where
  endpoint : Endpoint
  transport : Option Nat
  state : SessionState
  serverInfo : Option String
  cursor : Option ResultCursor
  lastError : Option ErrorState
  deriving DecidableEq, Repr

/-- Modelled from the spec: what sending one command and decoding the response
gives (§2 data flow, §4.1, §4.2): a transport failure, an undecodable frame, or
one of the Codec responses OkStatus, ErrorStatus, ResultSetHeader with its
rows.  Transport, Codec and server are collaborators outside the core. -/
inductive Exchange where
  | ioError (e : ErrorState)
  | protocolError (e : ErrorState)
  | okStatus (rowsAffected : Nat)
  | errorStatus (e : ErrorState)
  | resultSet (columns : List ColumnDescriptor) (rows : List Row)
  deriving DecidableEq, Repr

/-- Modelled from the spec: what `query` returns to its caller (§4.3): an
immediate status, a ResultCursor, or a failure. -/
inductive QueryResult where
  | status (rowsAffected : Nat)
  | cursor (c : ResultCursor)
  | failure (f : Failure)
  deriving DecidableEq, Repr

/-- Modelled from the spec: `close()` of §4.3, absent from the sources: valid
from any state; releases Transport, invalidates any open cursor, transitions
to Closed; it reports no error, and as a successful operation it clears the
last-error slot (§4.5).  The second component is the error returned, if any. -/
def Session.close (s : Session) : Session × Option Failure :=
  ({ s with transport := none, cursor := none, state := .Closed, lastError := none }, none)

/-- Modelled from the spec: `query(command)` of §4.3 and the failure semantics
of §4.3 and §7, absent from the sources.  `exchange` is the send/receive/decode
round trip for a command, `stateError` the ErrorState the ErrorReporter gives a
StateError.  Outside Ready the call fails with StateError and the connection
state is unchanged.  From Ready the command is sent (a cursor of an earlier
command is gone once a new command is issued, §3); a transport failure or an
undecodable frame is terminal (Disconnected); a failure reported by the server
is a ServerError and the Session returns to Ready; rows give ResultPending and
a cursor; an OK status returns to Ready.  A failure sets the last-error slot, a
success clears it (§4.5). -/
def Session.query (s : Session) (command : String) (exchange : String → Exchange)
    (stateError : ErrorState) : Session × QueryResult :=
  if s.state ≠ .Ready then
    ({ s with lastError := some stateError }, .failure ⟨.StateError, stateError⟩)
  else
    match exchange command with
    | .ioError e =>
      ({ s with state := .Disconnected, cursor := none, lastError := some e },
        .failure ⟨.IOError, e⟩)
    | .protocolError e =>
      ({ s with state := .Disconnected, cursor := none, lastError := some e },
        .failure ⟨.ProtocolError, e⟩)
    | .okStatus n =>
      ({ s with state := .Ready, cursor := none, lastError := none }, .status n)
    | .errorStatus e =>
      ({ s with state := .Ready, cursor := none, lastError := some e },
        .failure ⟨.ServerError, e⟩)
    | .resultSet columns rows =>
      ({ s with
          state := .ResultPending,
          cursor := some ⟨columns, rows, 0, false⟩,
          lastError := none },
        .cursor ⟨columns, rows, 0, false⟩)

/-- A Session in state Ready, for concrete runs. -/
def readySession : Session where
  endpoint := ⟨"localhost", 3306, "root", "root_pswd", ""⟩
  transport := some 3
  state := .Ready
  serverInfo := some "server"
  cursor := none
  lastError := none

/-- A server on which `testdb` exists, for concrete runs: it reports a
failure for "CREATE DATABASE testdb" and an OK status for everything else. -/
def serverWithTestdb (command : String) : Exchange :=
  if command = "CREATE DATABASE testdb" then
    .errorStatus ⟨1007, "HY000", "database exists"⟩
  else
    .okStatus 0

/-! ## Shape of every run -/

/-- The four runs of `main`, by the outcomes of `mysql_init`,
`mysql_real_connect` and `mysql_query`. -/
theorem main_cases (L : ClientLib σ) (s0 : σ) :
    (initHandle L s0 = nullptr ∧ ∃ msg,
      (main L s0).status = 1 ∧
      (main L s0).world.calls =
        [Call.mysql_init nullptr nullptr, Call.mysql_error nullptr msg] ∧
      (main L s0).world.stderr = msg ++ "\n") ∨
    (initHandle L s0 ≠ nullptr ∧ connectResult L s0 = NULL ∧ ∃ msg,
      (main L s0).status = 1 ∧
      (main L s0).world.calls =
        [Call.mysql_init nullptr (initHandle L s0),
         Call.mysql_real_connect (initHandle L s0) (some "localhost") (some "root")
           (some "root_pswd") none 0 none 0 NULL,
         Call.mysql_error (initHandle L s0) msg,
         Call.mysql_close (initHandle L s0)] ∧
      (main L s0).world.stderr = msg ++ "\n") ∨
    (initHandle L s0 ≠ nullptr ∧ connectResult L s0 ≠ NULL ∧ queryResult L s0 ≠ 0 ∧ ∃ msg,
      (main L s0).status = 1 ∧
      (main L s0).world.calls =
        [Call.mysql_init nullptr (initHandle L s0),
         Call.mysql_real_connect (initHandle L s0) (some "localhost") (some "root")
           (some "root_pswd") none 0 none 0 (connectResult L s0),
         Call.mysql_query (initHandle L s0) "CREATE DATABASE testdb" (queryResult L s0),
         Call.mysql_error (initHandle L s0) msg,
         Call.mysql_close (initHandle L s0)] ∧
      (main L s0).world.stderr = msg ++ "\n") ∨
    (initHandle L s0 ≠ nullptr ∧ connectResult L s0 ≠ NULL ∧ queryResult L s0 = 0 ∧
      (main L s0).status = 0 ∧
      (main L s0).world.calls =
        [Call.mysql_init nullptr (initHandle L s0),
         Call.mysql_real_connect (initHandle L s0) (some "localhost") (some "root")
           (some "root_pswd") none 0 none 0 (connectResult L s0),
         Call.mysql_query (initHandle L s0) "CREATE DATABASE testdb" (queryResult L s0),
         Call.mysql_close (initHandle L s0)] ∧
      (main L s0).world.stderr = "") := by
  by_cases h : initHandle L s0 = nullptr
  · left
    refine ⟨h, (L.mysql_error nullptr (L.mysql_init nullptr s0).2).1, ?_⟩
    unfold initHandle at h
    simp [main, World.mysql_init, World.mysql_error, World.fprintf_stderr, World.exit, h]
  · right
    by_cases c : connectResult L s0 = NULL
    · left
      refine ⟨h, c, (L.mysql_error (initHandle L s0) (connectedState L s0)).1, ?_⟩
      unfold connectResult at c
      unfold initHandle at h c
      simp [main, World.mysql_init, World.mysql_real_connect, World.mysql_error,
        World.fprintf_stderr, World.mysql_close, World.exit, h, c, initHandle, connectedState]
    · right
      by_cases q : queryResult L s0 = 0
      · right
        refine ⟨h, c, q, ?_⟩
        unfold queryResult connectedState at q
        unfold connectResult at c
        unfold initHandle at h c q
        simp [main, World.mysql_init, World.mysql_real_connect, World.mysql_query,
          World.mysql_close, World.exit, h, c, q, initHandle, connectResult, queryResult,
          connectedState]
      · left
        refine ⟨h, c, q, (L.mysql_error (initHandle L s0)
          (L.mysql_query (initHandle L s0) "CREATE DATABASE testdb"
            (connectedState L s0)).2).1, ?_⟩
        unfold queryResult connectedState at q
        unfold connectResult at c
        unfold initHandle at h c q
        simp [main, World.mysql_init, World.mysql_real_connect, World.mysql_query,
          World.mysql_error, World.fprintf_stderr, World.mysql_close, World.exit, h, c, q,
          initHandle, connectResult, queryResult, connectedState]

/-! ### Concrete runs -/

theorem main_run_init_failure :
    (main (scripted 0 0 0 "out of memory") ()).world.calls =
      [Call.mysql_init 0 0, Call.mysql_error 0 "out of memory"] ∧
    (main (scripted 0 0 0 "out of memory") ()).world.stderr = "out of memory\n" ∧
    (main (scripted 0 0 0 "out of memory") ()).status = 1 := by
  decide

theorem main_run_connect_failure :
    (main (scripted 7 0 0 "Can't connect") ()).world.calls =
      [Call.mysql_init 0 7,
       Call.mysql_real_connect 7 (some "localhost") (some "root") (some "root_pswd")
         none 0 none 0 0,
       Call.mysql_error 7 "Can't connect",
       Call.mysql_close 7] ∧
    (main (scripted 7 0 0 "Can't connect") ()).world.stderr = "Can't connect\n" ∧
    (main (scripted 7 0 0 "Can't connect") ()).status = 1 := by
  decide

theorem main_run_query_failure :
    (main (scripted 7 7 1 "database exists") ()).world.calls =
      [Call.mysql_init 0 7,
       Call.mysql_real_connect 7 (some "localhost") (some "root") (some "root_pswd")
         none 0 none 0 7,
       Call.mysql_query 7 "CREATE DATABASE testdb" 1,
       Call.mysql_error 7 "database exists",
       Call.mysql_close 7] ∧
    (main (scripted 7 7 1 "database exists") ()).world.stderr = "database exists\n" ∧
    (main (scripted 7 7 1 "database exists") ()).status = 1 := by
  decide

/-! ## The smoke test: claims about `main` -/

/-- C1: when `mysql_init` returns a non-null handle, `mysql_real_connect`
returns non-null and `mysql_query` returns 0, the library calls of the smoke
test are exactly `mysql_init`, `mysql_real_connect`, `mysql_query` with the
text "CREATE DATABASE testdb", `mysql_close`, in that order; no call is a
`mysql_error`, there is exactly one statement, and the exit status is 0. -/
theorem smoke_test_success_run (L : ClientLib σ) (s0 : σ)
    (hi : initHandle L s0 ≠ nullptr) (hc : connectResult L s0 ≠ NULL)
    (hq : queryResult L s0 = 0) :
    (main L s0).world.calls =
      [Call.mysql_init nullptr (initHandle L s0),
       Call.mysql_real_connect (initHandle L s0) (some "localhost") (some "root")
         (some "root_pswd") none 0 none 0 (connectResult L s0),
       Call.mysql_query (initHandle L s0) "CREATE DATABASE testdb" 0,
       Call.mysql_close (initHandle L s0)] ∧
    (∀ c ∈ (main L s0).world.calls, c.isError = false) ∧
    ((main L s0).world.calls.filter Call.isQuery).length = 1 ∧
    (main L s0).status = 0 := by
  rcases main_cases L s0 with ⟨h, _⟩ | ⟨_, c, _⟩ | ⟨_, _, q, _⟩ | ⟨_, _, _, hs, ht, _⟩
  · exact absurd h hi
  · exact absurd c hc
  · exact absurd hq q
  · rw [ht, hq]
    simp [hs, Call.isError, Call.isQuery]

theorem smoke_test_success_run_witness :
    initHandle (scripted 7 7 0 "") () ≠ nullptr ∧
    connectResult (scripted 7 7 0 "") () ≠ NULL ∧
    queryResult (scripted 7 7 0 "") () = 0 ∧
    (main (scripted 7 7 0 "") ()).world.calls =
      [Call.mysql_init 0 7,
       Call.mysql_real_connect 7 (some "localhost") (some "root")
         (some "root_pswd") none 0 none 0 7,
       Call.mysql_query 7 "CREATE DATABASE testdb" 0,
       Call.mysql_close 7] ∧
    (main (scripted 7 7 0 "") ()).status = 0 :=
  have h := smoke_test_success_run (scripted 7 7 0 "") () (by decide) (by decide) (by decide)
  ⟨by decide, by decide, by decide, h.1, h.2.2.2⟩

/-- C2: for every behaviour of the library, the smoke test exits with status 0
if and only if `mysql_init` returned a non-null handle, `mysql_real_connect`
returned non-null and `mysql_query` returned 0 (stated on the library outcomes
and on the calls recorded in the run); otherwise it exits with status 1; and
every library call made after a failing call is `mysql_error` or
`mysql_close`. -/
theorem smoke_test_exit_status (L : ClientLib σ) (s0 : σ) :
    ((main L s0).status = 0 ↔
      initHandle L s0 ≠ nullptr ∧ connectResult L s0 ≠ NULL ∧ queryResult L s0 = 0) ∧
    ((main L s0).status = 0 ↔
      (∃ c ∈ (main L s0).world.calls, c.isInit = true ∧ c.failed = false) ∧
      (∃ c ∈ (main L s0).world.calls, c.isConnect = true ∧ c.failed = false) ∧
      (∃ c ∈ (main L s0).world.calls, c.isQuery = true ∧ c.failed = false)) ∧
    ((main L s0).status = 0 ∨ (main L s0).status = 1) ∧
    (main L s0).world.calls.Pairwise
      (fun c d => c.failed = true → d.isError = true ∨ d.isClose = true) := by
  rcases main_cases L s0 with ⟨h, msg, hs, ht, _⟩ | ⟨h, c, msg, hs, ht, _⟩ |
    ⟨h, c, q, msg, hs, ht, _⟩ | ⟨h, c, q, hs, ht, _⟩
  · rw [ht, hs]
    refine ⟨by simp [h], ?_, by simp, ?_⟩
    · simp [Call.isInit, Call.isConnect, Call.isQuery, Call.failed, nullptr]
    · simp [Call.isError, Call.isClose, Call.failed]
  · rw [ht, hs]
    refine ⟨by simp [h, c], ?_, by simp, ?_⟩
    · simp [Call.isInit, Call.isConnect, Call.isQuery, Call.failed, NULL]
    · have h0 : ¬ initHandle L s0 = 0 := h
      simp [Call.isError, Call.isClose, Call.failed, h0]
  · rw [ht, hs]
    refine ⟨by simp [h, c, q], ?_, by simp, ?_⟩
    · simp [Call.isInit, Call.isConnect, Call.isQuery, Call.failed, q]
    · have h0 : ¬ initHandle L s0 = 0 := h
      have c0 : ¬ connectResult L s0 = 0 := c
      simp [Call.isError, Call.isClose, Call.failed, h0, c0]
  · rw [ht, hs]
    have h0 : ¬ initHandle L s0 = 0 := h
    have c0 : ¬ connectResult L s0 = 0 := c
    refine ⟨by simp [h, c, q], ?_, by simp, ?_⟩
    · simp [Call.isInit, Call.isConnect, Call.isQuery, Call.failed, h0, c0, q]
    · simp [Call.isError, Call.isClose, Call.failed, h0, c0, q]

/-- C3: whenever `mysql_init` returned a non-null handle, the smoke test calls
`mysql_close` on that handle exactly once, in every run; that call is the last
library call of the run, so no call uses the handle after it and the handle is
not closed twice. -/
theorem smoke_test_close_once (L : ClientLib σ) (s0 : σ)
    (hi : initHandle L s0 ≠ nullptr) :
    (∃ before : List Call,
      (main L s0).world.calls = before ++ [Call.mysql_close (initHandle L s0)] ∧
      ∀ c ∈ before, c.isClose = false) ∧
    (main L s0).world.calls.filter Call.isClose = [Call.mysql_close (initHandle L s0)] ∧
    (main L s0).world.calls.getLast? = some (Call.mysql_close (initHandle L s0)) ∧
    (main L s0).world.calls.head? = some (Call.mysql_init nullptr (initHandle L s0)) := by
  rcases main_cases L s0 with ⟨h, _⟩ | ⟨_, _, msg, _, ht, _⟩ |
    ⟨_, _, _, msg, _, ht, _⟩ | ⟨_, _, _, _, ht, _⟩
  · exact absurd h hi
  · rw [ht]
    refine ⟨⟨[Call.mysql_init nullptr (initHandle L s0),
         Call.mysql_real_connect (initHandle L s0) (some "localhost") (some "root")
           (some "root_pswd") none 0 none 0 NULL,
         Call.mysql_error (initHandle L s0) msg], by simp, by simp [Call.isClose]⟩, ?_, ?_, ?_⟩ <;>
      simp [Call.isClose]
  · rw [ht]
    refine ⟨⟨[Call.mysql_init nullptr (initHandle L s0),
         Call.mysql_real_connect (initHandle L s0) (some "localhost") (some "root")
           (some "root_pswd") none 0 none 0 (connectResult L s0),
         Call.mysql_query (initHandle L s0) "CREATE DATABASE testdb" (queryResult L s0),
         Call.mysql_error (initHandle L s0) msg], by simp, by simp [Call.isClose]⟩, ?_, ?_, ?_⟩ <;>
      simp [Call.isClose]
  · rw [ht]
    refine ⟨⟨[Call.mysql_init nullptr (initHandle L s0),
         Call.mysql_real_connect (initHandle L s0) (some "localhost") (some "root")
           (some "root_pswd") none 0 none 0 (connectResult L s0),
         Call.mysql_query (initHandle L s0) "CREATE DATABASE testdb" (queryResult L s0)],
         by simp, by simp [Call.isClose]⟩, ?_, ?_, ?_⟩ <;>
      simp [Call.isClose]

theorem smoke_test_close_once_witness :
    initHandle (scripted 7 0 0 "Can't connect") () ≠ nullptr ∧
    (main (scripted 7 0 0 "Can't connect") ()).world.calls.filter Call.isClose =
      [Call.mysql_close 7] ∧
    (main (scripted 7 0 0 "Can't connect") ()).world.calls.getLast? =
      some (Call.mysql_close 7) :=
  have h := smoke_test_close_once (scripted 7 0 0 "Can't connect") () (by decide)
  ⟨by decide, h.2.1, h.2.2.1⟩

/-- C4: in every run, a `mysql_query` call comes only after a
`mysql_real_connect` call on the same handle that returned non-null, with no
`mysql_close` in between; a run holds at most one `mysql_query` call; and a run
in which `mysql_real_connect` returned null holds no `mysql_query` call. -/
theorem smoke_test_query_when_connected (L : ClientLib σ) (s0 : σ) :
    (∀ (before after : List Call) (c : Call),
      (main L s0).world.calls = before ++ c :: after → c.isQuery = true →
      (∃ d ∈ before, d.isConnect = true ∧ d.failed = false ∧ d.handle = c.handle) ∧
      (∀ d ∈ before, d.isClose = false)) ∧
    ((main L s0).world.calls.filter Call.isQuery).length ≤ 1 ∧
    ((∃ c ∈ (main L s0).world.calls, c.isConnect = true ∧ c.failed = true) →
      ∀ c ∈ (main L s0).world.calls, c.isQuery = false) := by
  rcases main_cases L s0 with ⟨h, msg, hs, ht, _⟩ | ⟨h, c, msg, hs, ht, _⟩ |
    ⟨h, c, q, msg, hs, ht, _⟩ | ⟨h, c, q, hs, ht, _⟩
  · rw [ht]
    refine ⟨?_, by simp [Call.isQuery], by simp [Call.isConnect]⟩
    intro before after a hsplit ha
    simp [List.cons_eq_append_iff] at hsplit
    rcases hsplit with ⟨rfl, rfl, rfl⟩ | ⟨_, rfl, rfl, rfl, rfl⟩ <;>
      simp [Call.isQuery] at ha
  · rw [ht]
    refine ⟨?_, by simp [Call.isQuery], by simp [Call.isQuery]⟩
    intro before after a hsplit ha
    simp [List.cons_eq_append_iff] at hsplit
    rcases hsplit with ⟨rfl, rfl, rfl⟩ | ⟨_, rfl, ⟨rfl, rfl, rfl⟩ |
      ⟨_, rfl, ⟨rfl, rfl, rfl⟩ | ⟨_, rfl, rfl, rfl, rfl⟩⟩⟩ <;>
      simp [Call.isQuery] at ha
  · have c0 : ¬ connectResult L s0 = 0 := c
    rw [ht]
    refine ⟨?_, by simp [Call.isQuery], by simp [Call.isConnect, Call.failed, c0]⟩
    intro before after a hsplit ha
    simp [List.cons_eq_append_iff] at hsplit
    rcases hsplit with ⟨rfl, rfl, rfl⟩ | ⟨_, rfl, ⟨rfl, rfl, rfl⟩ |
      ⟨_, rfl, ⟨rfl, rfl, rfl⟩ | ⟨_, rfl, ⟨rfl, rfl, rfl⟩ | ⟨_, rfl, rfl, rfl, rfl⟩⟩⟩⟩
    all_goals first
      | (simp [Call.isQuery] at ha; done)
      | simp [Call.isConnect, Call.failed, Call.handle, Call.isClose, c0]
  · have c0 : ¬ connectResult L s0 = 0 := c
    rw [ht]
    refine ⟨?_, by simp [Call.isQuery], by simp [Call.isConnect, Call.failed, c0]⟩
    intro before after a hsplit ha
    simp [List.cons_eq_append_iff] at hsplit
    rcases hsplit with ⟨rfl, rfl, rfl⟩ | ⟨_, rfl, ⟨rfl, rfl, rfl⟩ |
      ⟨_, rfl, ⟨rfl, rfl, rfl⟩ | ⟨_, rfl, rfl, rfl, rfl⟩⟩⟩
    all_goals first
      | (simp [Call.isQuery] at ha; done)
      | simp [Call.isConnect, Call.failed, Call.handle, Call.isClose, c0]

/-- C5: in every run in which a call fails (`mysql_init`, `mysql_real_connect`
or `mysql_query`), the smoke test calls `mysql_error` exactly once, as the
call right after the failing one and with no `mysql_close` before it, and
`stderr` holds the returned message followed by a newline; in the run in which
no call fails there is no `mysql_error` call and `stderr` is empty. -/
theorem smoke_test_error_report (L : ClientLib σ) (s0 : σ) :
    ((∃ c ∈ (main L s0).world.calls, c.failed = true) →
      ∃ (before after : List Call) (f : Call) (msg : String),
        (main L s0).world.calls =
          before ++ f :: Call.mysql_error (initHandle L s0) msg :: after ∧
        f.failed = true ∧
        (∀ c ∈ before, c.isError = false ∧ c.isClose = false ∧ c.failed = false) ∧
        (∀ c ∈ after, c.isError = false) ∧
        (main L s0).world.stderr = msg ++ "\n") ∧
    ((∀ c ∈ (main L s0).world.calls, c.failed = false) →
      (∀ c ∈ (main L s0).world.calls, c.isError = false) ∧
      (main L s0).world.stderr = "") := by
  rcases main_cases L s0 with ⟨h, msg, hs, ht, he⟩ | ⟨h, c, msg, hs, ht, he⟩ |
    ⟨h, c, q, msg, hs, ht, he⟩ | ⟨h, c, q, hs, ht, he⟩
  · rw [ht, he, h]
    refine ⟨fun _ => ⟨[], [], _, msg, rfl, ?_⟩, ?_⟩
    · simp [Call.failed, nullptr]
    · simp [Call.failed, nullptr]
  · have h0 : ¬ initHandle L s0 = 0 := h
    rw [ht, he]
    refine ⟨fun _ => ⟨[Call.mysql_init nullptr (initHandle L s0)],
      [Call.mysql_close (initHandle L s0)], _, msg, rfl, ?_⟩, ?_⟩
    · simp [Call.failed, Call.isError, Call.isClose, NULL, h0]
    · simp [Call.failed, NULL]
  · have h0 : ¬ initHandle L s0 = 0 := h
    have c0 : ¬ connectResult L s0 = 0 := c
    rw [ht, he]
    refine ⟨fun _ => ⟨[Call.mysql_init nullptr (initHandle L s0),
      Call.mysql_real_connect (initHandle L s0) (some "localhost") (some "root")
        (some "root_pswd") none 0 none 0 (connectResult L s0)],
      [Call.mysql_close (initHandle L s0)], _, msg, rfl, ?_⟩, ?_⟩
    · simp [Call.failed, Call.isError, Call.isClose, h0, c0, q]
    · simp [Call.failed, q]
  · have h0 : ¬ initHandle L s0 = 0 := h
    have c0 : ¬ connectResult L s0 = 0 := c
    rw [ht, he]
    refine ⟨?_, fun _ => ?_⟩
    · simp [Call.failed, h0, c0, q]
    · simp [Call.isError]

/-- C10: in every run, each `mysql_real_connect`, `mysql_query` and
`mysql_close` call is passed the handle `mysql_init` returned, and that handle
is non-null; a call made with the returned handle being null (any call other
than `mysql_init(nullptr)` itself) is a `mysql_error` call, there is at most
one, and it occurs only when `mysql_init` returned null; in that run the calls
are `mysql_init` then `mysql_error`, none is `mysql_real_connect`,
`mysql_query` or `mysql_close`, and the exit status is 1. -/
theorem smoke_test_handle_safety (L : ClientLib σ) (s0 : σ) :
    (∀ c ∈ (main L s0).world.calls,
      c.isConnect = true ∨ c.isQuery = true ∨ c.isClose = true →
      c.handle = initHandle L s0 ∧ c.handle ≠ nullptr) ∧
    (∀ c ∈ (main L s0).world.calls, c.isInit = false → c.handle = nullptr →
      c.isError = true ∧ initHandle L s0 = nullptr) ∧
    ((main L s0).world.calls.filter
      (fun c => !c.isInit && c.handle == nullptr)).length ≤ 1 ∧
    (main L s0).world.calls.head? = some (Call.mysql_init nullptr (initHandle L s0)) ∧
    (initHandle L s0 = nullptr →
      (∃ msg, (main L s0).world.calls =
        [Call.mysql_init nullptr nullptr, Call.mysql_error nullptr msg]) ∧
      (∀ c ∈ (main L s0).world.calls,
        c.isConnect = false ∧ c.isQuery = false ∧ c.isClose = false) ∧
      (main L s0).status = 1) := by
  rcases main_cases L s0 with ⟨h, msg, hs, ht, he⟩ | ⟨h, c, msg, hs, ht, he⟩ |
    ⟨h, c, q, msg, hs, ht, he⟩ | ⟨h, c, q, hs, ht, he⟩
  · rw [ht, hs, h]
    simp [Call.isInit, Call.isConnect, Call.isQuery, Call.isClose, Call.isError, Call.handle]
  all_goals
    have h0 : ¬ initHandle L s0 = 0 := h
    rw [ht]
    simp [Call.isInit, Call.isConnect, Call.isQuery, Call.isClose, Call.isError, Call.handle,
      h, h0, nullptr]

/-! ## Facts about `enum_field_types` -/

theorem enum_field_types.table_complete (e : enum_field_types) :
    enum_field_types.table.lookup e = some e.value := by
  cases e <;> decide

theorem enum_field_types.table_sound :
    ∀ p ∈ enum_field_types.table, enum_field_types.value p.1 = p.2 := by
  decide

theorem enum_field_types.ofValue?_value (e : enum_field_types) :
    enum_field_types.ofValue? e.value = some e := by
  cases e <;> decide

theorem enum_field_types.value_of_ofValue? (n : Int) (e : enum_field_types)
    (h : enum_field_types.ofValue? n = some e) : e.value = n := by
  unfold enum_field_types.ofValue? at h
  rcases hf : enum_field_types.table.find? (fun p => p.2 == n) with _ | p
  · rw [hf] at h
    exact absurd h (by simp)
  · rw [hf] at h
    have hp : p.1 = e := by simpa using h
    have hn : (p.2 == n) = true :=
      List.find?_some (p := fun p : enum_field_types × Int => p.2 == n) hf
    have hm : p ∈ enum_field_types.table := List.mem_of_find?_eq_some hf
    rw [← hp, enum_field_types.table_sound p hm]
    simpa using hn

/-- C6: every enumerator of `enum_field_types` has the numeric value of the
client library's type tag, `MYSQL_TYPE_DECIMAL = 0` up to `MYSQL_TYPE_TIME2 = 19`
and `MYSQL_TYPE_JSON = 245` up to `MYSQL_TYPE_GEOMETRY = 255`; the sentinel
`MAX_NO_FIELD_TYPES` is 256, strictly greater than the value of every field
type, and every field type value lies in 0..255 (one byte). -/
theorem enum_field_types_values :
    (enum_field_types.value .MYSQL_TYPE_DECIMAL = 0 ∧
    enum_field_types.value .MYSQL_TYPE_TINY = 1 ∧
    enum_field_types.value .MYSQL_TYPE_SHORT = 2 ∧
    enum_field_types.value .MYSQL_TYPE_LONG = 3 ∧
    enum_field_types.value .MYSQL_TYPE_FLOAT = 4 ∧
    enum_field_types.value .MYSQL_TYPE_DOUBLE = 5 ∧
    enum_field_types.value .MYSQL_TYPE_NULL = 6 ∧
    enum_field_types.value .MYSQL_TYPE_TIMESTAMP = 7 ∧
    enum_field_types.value .MYSQL_TYPE_LONGLONG = 8 ∧
    enum_field_types.value .MYSQL_TYPE_INT24 = 9 ∧
    enum_field_types.value .MYSQL_TYPE_DATE = 10 ∧
    enum_field_types.value .MYSQL_TYPE_TIME = 11 ∧
    enum_field_types.value .MYSQL_TYPE_DATETIME = 12 ∧
    enum_field_types.value .MYSQL_TYPE_YEAR = 13 ∧
    enum_field_types.value .MYSQL_TYPE_NEWDATE = 14 ∧
    enum_field_types.value .MYSQL_TYPE_VARCHAR = 15 ∧
    enum_field_types.value .MYSQL_TYPE_BIT = 16 ∧
    enum_field_types.value .MYSQL_TYPE_TIMESTAMP2 = 17 ∧
    enum_field_types.value .MYSQL_TYPE_DATETIME2 = 18 ∧
    enum_field_types.value .MYSQL_TYPE_TIME2 = 19 ∧
    enum_field_types.value .MYSQL_TYPE_JSON = 245 ∧
    enum_field_types.value .MYSQL_TYPE_NEWDECIMAL = 246 ∧
    enum_field_types.value .MYSQL_TYPE_ENUM = 247 ∧
    enum_field_types.value .MYSQL_TYPE_SET = 248 ∧
    enum_field_types.value .MYSQL_TYPE_TINY_BLOB = 249 ∧
    enum_field_types.value .MYSQL_TYPE_MEDIUM_BLOB = 250 ∧
    enum_field_types.value .MYSQL_TYPE_LONG_BLOB = 251 ∧
    enum_field_types.value .MYSQL_TYPE_BLOB = 252 ∧
    enum_field_types.value .MYSQL_TYPE_VAR_STRING = 253 ∧
    enum_field_types.value .MYSQL_TYPE_STRING = 254 ∧
    enum_field_types.value .MYSQL_TYPE_GEOMETRY = 255 ∧
    enum_field_types.value .MAX_NO_FIELD_TYPES = 256) ∧
    (∀ e : enum_field_types, e.isFieldType = true →
      e.value < enum_field_types.value .MAX_NO_FIELD_TYPES ∧
      0 ≤ e.value ∧ e.value ≤ 255) := by
  refine ⟨by decide, ?_⟩
  intro e
  cases e <;> decide

/-- C9: the numeric value is a faithful type tag: the value map of
`enum_field_types` is injective, reading a value back gives the enumerator it
came from and the enumerator read back from a tag has that tag as value; an
integer `n` is the value of a field type (an enumerator other than
`MAX_NO_FIELD_TYPES`) exactly when `0 ≤ n ≤ 19` or `245 ≤ n ≤ 255`, so every
`n` in 20..244, every `n ≥ 256` and every negative `n` is the tag of no field
type. -/
theorem enum_field_types_value_faithful :
    Function.Injective enum_field_types.value ∧
    (∀ e : enum_field_types, enum_field_types.ofValue? e.value = some e) ∧
    (∀ (n : Int) (e : enum_field_types),
      enum_field_types.ofValue? n = some e → e.value = n) ∧
    (∀ n : Int, (∃ e : enum_field_types, e.isFieldType = true ∧ e.value = n) ↔
      (0 ≤ n ∧ n ≤ 19) ∨ (245 ≤ n ∧ n ≤ 255)) ∧
    (∀ n : Int, (20 ≤ n ∧ n ≤ 244) ∨ 256 ≤ n ∨ n < 0 →
      ¬ ∃ e : enum_field_types, e.isFieldType = true ∧ e.value = n) := by
  have hiff : ∀ n : Int, (∃ e : enum_field_types, e.isFieldType = true ∧ e.value = n) ↔
      (0 ≤ n ∧ n ≤ 19) ∨ (245 ≤ n ∧ n ≤ 255) := by
    intro n
    constructor
    · rintro ⟨e, he, rfl⟩
      cases e
      all_goals first
        | exact absurd he (by decide)
        | decide
    · rintro (⟨h1, h2⟩ | ⟨h1, h2⟩) <;> interval_cases n <;> decide
  refine ⟨?_, enum_field_types.ofValue?_value, enum_field_types.value_of_ofValue?, hiff, ?_⟩
  · intro a b hab
    have ha := enum_field_types.ofValue?_value a
    rw [hab, enum_field_types.ofValue?_value b] at ha
    exact (Option.some.inj ha).symm
  · intro n hn hex
    have := (hiff n).mp hex
    omega

/-! ## The Session core of the specification -/

/-- C7: scenario: `query("CREATE DATABASE testdb")` on a Ready Session, against
a server that reports a failure for it (the database already exists) with a
non-zero code and a non-empty message, returns a ServerError carrying that
non-zero code and non-empty message; the Session remains Ready, its last-error
slot holds the error, and a further command is accepted (it is never rejected
with a StateError). -/
theorem query_create_existing_database (s : Session) (exchange : String → Exchange)
    (stateError e : ErrorState)
    (hready : s.state = .Ready)
    (hserver : exchange "CREATE DATABASE testdb" = .errorStatus e)
    (hcode : e.code ≠ 0) (hmsg : e.message ≠ "") :
    (s.query "CREATE DATABASE testdb" exchange stateError).2 =
      .failure ⟨.ServerError, e⟩ ∧
    (∃ f, (s.query "CREATE DATABASE testdb" exchange stateError).2 = .failure f ∧
      f.kind = .ServerError ∧ f.error.code ≠ 0 ∧ f.error.message ≠ "") ∧
    (s.query "CREATE DATABASE testdb" exchange stateError).1.state = .Ready ∧
    (s.query "CREATE DATABASE testdb" exchange stateError).1.lastError = some e ∧
    (s.query "CREATE DATABASE testdb" exchange stateError).1.transport = s.transport ∧
    (∀ (command : String) (next : String → Exchange) (f : Failure),
      ((s.query "CREATE DATABASE testdb" exchange stateError).1.query
        command next stateError).2 = .failure f → f.kind ≠ .StateError) := by
  have hq : s.query "CREATE DATABASE testdb" exchange stateError =
      ({ s with state := .Ready, cursor := none, lastError := some e },
        .failure ⟨.ServerError, e⟩) := by
    simp [Session.query, hready, hserver]
  rw [hq]
  refine ⟨rfl, ⟨_, rfl, rfl, hcode, hmsg⟩, rfl, rfl, rfl, ?_⟩
  intro command next f hf
  simp only [Session.query] at hf
  cases hx : next command <;> simp [hx] at hf <;> simp [← hf]

theorem query_create_existing_database_witness :
    readySession.state = .Ready ∧
    serverWithTestdb "CREATE DATABASE testdb" =
      .errorStatus ⟨1007, "HY000", "database exists"⟩ ∧
    (readySession.query "CREATE DATABASE testdb" serverWithTestdb ⟨0, "", ""⟩).2 =
      .failure ⟨.ServerError, ⟨1007, "HY000", "database exists"⟩⟩ ∧
    (readySession.query "CREATE DATABASE testdb" serverWithTestdb ⟨0, "", ""⟩).1.state =
      .Ready :=
  have h := query_create_existing_database readySession serverWithTestdb ⟨0, "", ""⟩
    ⟨1007, "HY000", "database exists"⟩ (by decide) (by decide) (by decide) (by decide)
  ⟨by decide, by decide, h.1, h.2.2.1⟩

/-- C8: `close` is idempotent: for every Session, in whatever state, a first
`close` reports no error and leaves the state Closed, and a second `close`
after it reports no error, leaves the state Closed and leaves the Session
equal to the one after the first `close`. -/
theorem close_idempotent (s : Session) :
    s.close.2 = none ∧ s.close.1.state = .Closed ∧
    s.close.1.close.2 = none ∧ s.close.1.close.1.state = .Closed ∧
    s.close.1.close.1 = s.close.1 ∧
    s.close.1.close.1.transport = none ∧ s.close.1.close.1.cursor = none ∧
    s.close.1.close.1.lastError = none := by
  simp [Session.close]

end MicroOrm
